import Mathlib

/-!
Verification of the s-scan-mvp risk-score service (src/app.py) against its
natural-language specification.

The embedding models the two source files' core logic:
* `get_contract_age` — binary search over block heights for the creation block
  (src/app.py lines 77-118);
* `run_static_analysis` — the Slither adapter with its credential handling and
  exception-to-error translation (src/app.py lines 121-181);
* `get_risk_data` — the request handler with address validation, scoring and
  response assembly (src/app.py lines 31-74).

External collaborators (the node, the scanner, the checksum validator) are
modelled as explicit parameters: the node as a `Chain` of possibly-failing
operations (`Except String` models a raised exception), the scanner run as a
`ScanOutcome`, and the checksum validator as a `String → Option String`
function (`none` models the exception raised on a malformed address).

Python dictionaries with optional keys are modelled as structures with
`Option`-valued fields (`none` = key absent / value `None`); Python
truthiness of the relevant values is modelled by the explicit `strTruthy`,
`intTruthy` and `codeTruthy` functions.
-/

/-- Truthiness of an optional string, as Python evaluates
`analysis_data.get("error")` and `ETHERSCAN_API_KEY`: `None` and `""` are
falsy, every other string is truthy. -/
def strTruthy : Option String → Bool
  | none => false
  | some s => s ≠ ""

/-- Truthiness of an optional integer, as Python evaluates
`age_data.get("creation_date")`: `None` and `0` are falsy. -/
def intTruthy : Option Int → Bool
  | none => false
  | some t => t ≠ 0

/-- Truthiness test on bytecode performed by the source line
`if code and code != b'0x':` — the bytes must be non-empty and must differ
from the two-byte literal `b'0x'` (bytes 0x30 0x78). -/
def codeTruthy (code : List Nat) : Bool :=
  !code.isEmpty && code != [48, 120]

/-- The blockchain node as seen through the `w3` client.  Each operation that
performs a network round-trip is `Except String`-valued: `.error msg` models
the call raising an exception with message `msg`. -/
structure Chain where
  /-- `w3` is not `None` and `w3.is_connected()` returns `True`. -/
  connected : Bool
  /-- `w3.eth.block_number` (the current height). -/
  blockNumber : Except String Nat
  /-- `w3.eth.get_code(address, block_identifier=b)` — the bytecode bytes. -/
  getCode : Nat → Except String (List Nat)
  /-- `w3.eth.get_block(b).timestamp` for a numbered block. -/
  getBlock : Nat → Except String Int
  /-- `w3.eth.get_block("latest").timestamp`. -/
  latest : Except String Int

/-- The `age_data` dictionary produced by `get_contract_age`.  `none` models
an absent key or a `None` value. -/
structure AgeData where
  creation_date : Option Int
  block_number : Option Nat
  error : Option String
deriving Repr, DecidableEq

/-- The binary-search loop of `get_contract_age` (src/app.py lines 93-103),
together with the number of `get_code` probes it issues.

`start_block` is always a natural number (it starts at 0 and only increases),
while `end_block` is an `Int` because `end_block = mid_block - 1` can reach
−1.  Inside the loop `0 ≤ start_block ≤ end_block`, so the Nat computation
`(s + e.toNat) / 2` is exactly Python's `(start_block + end_block) // 2`.

A `get_code` exception aborts the loop (it is caught further out, in
`get_contract_age`). -/
def bsearch (gc : Nat → Except String (List Nat)) (s : Nat) (e : Int)
    (acc : Option Nat) : Except String (Option Nat) × Nat :=
  if _h : (s : Int) ≤ e then
    let mid : Nat := (s + e.toNat) / 2
    match gc mid with
    | .error msg => (.error msg, 1)
    | .ok code =>
      if codeTruthy code then
        -- contract code exists at this block: record it, search lower half
        let r := bsearch gc s ((mid : Int) - 1) (some mid)
        (r.1, r.2 + 1)
      else
        -- code does not exist yet, look later
        let r := bsearch gc (mid + 1) e acc
        (r.1, r.2 + 1)
  else (.ok acc, 0)
termination_by (e + 1 - s).toNat
decreasing_by
  · omega
  · omega

/-- `get_contract_age` (src/app.py lines 77-118).  Returns the `age_data`
dictionary together with the number of node queries issued by the search
(`get_code` probes plus the final `get_block` timestamp fetch, the counting
used by the spec's probe-count property).  The outer `Except` models the fact
that the `w3.eth.block_number` read on line 88 happens before the
`try:`/`except` block, so an exception raised there propagates out of the
function instead of being translated into an error dictionary. -/
def get_contract_age (ch : Chain) : Except String AgeData × Nat :=
  if !ch.connected then
    (.ok { creation_date := none, block_number := none,
           error := some "Web3 client is not connected to node provider." }, 0)
  else
    match ch.blockNumber with
    | .error msg => (.error msg, 0)
    | .ok end_block =>
      match bsearch ch.getCode 0 (end_block : Int) none with
      | (.error msg, n) =>
        (.ok { creation_date := none, block_number := none,
               error := some ("Web3 lookup failed: " ++ msg) }, n)
      | (.ok creation_block, n) =>
        match creation_block with
        | some cb =>
          if cb = 0 then
            -- `if creation_block:` — Python truthiness: 0 is falsy, so the
            -- found block 0 falls through to the not-found branch
            (.ok { creation_date := none, block_number := none,
                   error := some "Contract code not found via binary search." }, n)
          else
            match ch.getBlock cb with
            | .ok ts =>
              (.ok { creation_date := some ts, block_number := some cb,
                     error := none }, n + 1)
            | .error msg =>
              (.ok { creation_date := none, block_number := none,
                     error := some ("Web3 lookup failed: " ++ msg) }, n + 1)
        | none =>
          (.ok { creation_date := none, block_number := none,
                 error := some "Contract code not found via binary search." }, n)

/-- One vulnerability inside a detector's result dictionary (only its
`description` attribute is consumed by the adapter). -/
structure Vuln where
  description : String
deriving Repr, DecidableEq

/-- One Slither detector result: its `NAME` and its `result` dictionary
mapping an impact key to the list of findings of that impact (modelled as an
association list; `lookup` gives the dictionary semantics used by
`impact in d.result` / `d.result[impact]`). -/
structure Detector where
  NAME : String
  result : List (String × List Vuln)

/-- The outcome of the `Slither(...)` construction plus
`slither.generate_result()` call: either the detector list, or a raised
`SlitherException`, or any other raised exception. -/
inductive ScanOutcome where
  | ok (detectors : List Detector)
  | slitherExc (msg : String)
  | otherExc (msg : String)

/-- One entry of the `findings_list` produced by the adapter. -/
structure Finding where
  description : String
  impact : String
  detector : String
deriving Repr, DecidableEq

/-- The `findings` / `analysis_data` dictionary produced by
`run_static_analysis`.  `none` models an absent key (the error returns of the
source omit the four count keys entirely). -/
structure AnalysisData where
  critical : Option Nat
  high : Option Nat
  medium : Option Nat
  low : Option Nat
  findings_list : List Finding
  error : Option String
deriving Repr, DecidableEq

/-- Dictionary read `findings[impact]` for the four count keys. -/
def getCount (a : AnalysisData) (impact : String) : Option Nat :=
  if impact = "critical" then a.critical
  else if impact = "high" then a.high
  else if impact = "medium" then a.medium
  else if impact = "low" then a.low
  else none

/-- Dictionary write `findings[impact] = n` for the four count keys. -/
def setCount (a : AnalysisData) (impact : String) (n : Nat) : AnalysisData :=
  if impact = "critical" then { a with critical := some n }
  else if impact = "high" then { a with high := some n }
  else if impact = "medium" then { a with medium := some n }
  else if impact = "low" then { a with low := some n }
  else a

/-- `if impact in findings: findings[impact] += 1` (src/app.py lines
167-168).  The `findings` dictionary always carries the four count keys here,
so for the four impact strings the increment always happens. -/
def bumpCount (a : AnalysisData) (impact : String) : AnalysisData :=
  match getCount a impact with
  | some n => setCount a impact (n + 1)
  | none => a

/-- The innermost loop `for vuln in d.result[impact]:` (src/app.py lines
161-168): append a findings entry, then increment the matching counter. -/
def addVulns (dname : String) (impact : String) (vs : List Vuln)
    (a : AnalysisData) : AnalysisData :=
  vs.foldl
    (fun acc v =>
      bumpCount
        { acc with
          findings_list :=
            acc.findings_list ++ [{ description := v.description,
                                    impact := impact, detector := dname }] }
        impact)
    a

/-- Processing of one detector (src/app.py lines 156-168): skipped when its
`result` dictionary is falsy (empty); otherwise the four impact keys are
visited in the source's order `high, medium, low, critical`. -/
def processDetector (a : AnalysisData) (d : Detector) : AnalysisData :=
  if d.result.isEmpty then a
  else
    ["high", "medium", "low", "critical"].foldl
      (fun acc impact =>
        match d.result.lookup impact with
        | some vs => addVulns d.NAME impact vs acc
        | none => acc)
      a

/-- The success path of `run_static_analysis` (src/app.py lines 147-170):
fold the detector loop over the initial `findings` dictionary, whose four
counters start at 0. -/
def summarize (dets : List Detector) : AnalysisData :=
  dets.foldl processDetector
    { critical := some 0, high := some 0, medium := some 0, low := some 0,
      findings_list := [], error := none }

/-- The process environment, restricted to the one entry the source mutates:
`os.environ['ETHERSCAN_API_KEY']` (`none` = key not present). -/
structure Env where
  etherscanKey : Option String
deriving Repr, DecidableEq

/-- `run_static_analysis` (src/app.py lines 121-181).  `cfgKey` is the
module-level `ETHERSCAN_API_KEY` read from the configuration at startup,
`scan` the outcome of the Slither invocation, `env` the process environment.
Returns the `analysis_data` dictionary and the environment left behind.

The missing-credential check returns before the `try:` block, so it neither
injects the credential nor runs the `finally:` cleanup.  On every other path
the credential is first written into the environment and the `finally:`
block deletes the `ETHERSCAN_API_KEY` entry before the function returns. -/
def run_static_analysis (cfgKey : Option String) (scan : ScanOutcome)
    (env : Env) : AnalysisData × Env :=
  if !strTruthy cfgKey then
    ({ critical := none, high := none, medium := none, low := none,
       findings_list := [],
       error := some "Etherscan API Key is required for remote analysis." },
     env)
  else
    let env1 : Env := { env with etherscanKey := cfgKey }
    let result : AnalysisData :=
      match scan with
      | .ok dets => summarize dets
      | .slitherExc msg =>
        { critical := none, high := none, medium := none, low := none,
          findings_list := [],
          error := some ("Slither Analysis Failed: " ++ msg) }
      | .otherExc msg =>
        { critical := none, high := none, medium := none, low := none,
          findings_list := [],
          error := some ("Internal Slither Error: " ++ msg) }
    let env2 : Env := { env1 with etherscanKey := none }
    (result, env2)

/-- The `tvl_data` placeholder dictionary (src/app.py line 46). -/
structure TvlData where
  tvl_score : String
deriving Repr, DecidableEq

/-- The response payload assembled by the handler (src/app.py lines 68-74). -/
structure Report where
  contract_address : String
  age_data : AgeData
  tvl_data : TvlData
  analysis_data : AnalysisData
  final_score : Int
deriving Repr, DecidableEq

/-- What an invocation of the FastAPI handler produces: a normal JSON
response (HTTP 200), an `HTTPException` (here only the 400 of the address
validation), or an unhandled exception escaping the handler (which the HTTP
framework turns into a 5xx server error). -/
inductive HandlerResult where
  | ok (r : Report)
  | httpError (status : Nat) (detail : String)
  | crash (msg : String)
deriving Repr, DecidableEq

/-- The raw score after the finding penalties (src/app.py lines 49-55):
baseline 100; when the `error` field of `analysis_data` is falsy, subtract
`25 * critical + 15 * high + 5 * medium`, each count read with
`.get(key, 0)`. -/
def rawAfterPenalties (analysis : AnalysisData) : Int :=
  if !strTruthy analysis.error then
    100 - 25 * (analysis.critical.getD 0 : Int)
        - 15 * (analysis.high.getD 0 : Int)
        - 5 * (analysis.medium.getD 0 : Int)
  else 100

/-- The age-bonus term of the scorer (src/app.py lines 59-63): `+5` exactly
when `age_data.get("creation_date")` is truthy (present and non-zero) and
`now - creation_date > 31536000`. -/
def maturityBonus (age : AgeData) (now : Int) : Int :=
  if intTruthy age.creation_date then
    if now - age.creation_date.getD 0 > 31536000 then 5 else 0
  else 0

/-- The complete score computation of the handler (src/app.py lines 49-66):
penalties, then the age bonus, then the `max(0, raw_score)` floor.  `now` is
the timestamp of the latest block, fetched by the handler when the bonus
branch is taken. -/
def finalScore (analysis : AnalysisData) (age : AgeData) (now : Int) : Int :=
  let raw := rawAfterPenalties analysis
  let raw :=
    if intTruthy age.creation_date then
      if now - age.creation_date.getD 0 > 31536000 then raw + 5 else raw
    else raw
  max 0 raw

/-- `get_risk_data` (src/app.py lines 31-74), the `GET /risk-score/{address}`
handler.  `toChecksum` models `Web3.to_checksum_address` (`none` = the call
raised, which the handler converts into an HTTP 400); `cfgKey` is the
module-level `ETHERSCAN_API_KEY`; `ch`, `scan` and `env` are the external
collaborators.  Returns the handler outcome, the environment left behind and
the number of node queries issued (`get_code` probes, `get_block` timestamp
fetches and the `get_block("latest")` fetch of the scoring step).

The `w3.eth.get_block("latest")` call on line 60 is performed outside any
`try:` block, so its failure escapes the handler (`.crash`), as does a
failure of the `w3.eth.block_number` read inside `get_contract_age`. -/
def get_risk_data (toChecksum : String → Option String)
    (cfgKey : Option String) (ch : Chain) (scan : ScanOutcome) (env : Env)
    (address : String) : HandlerResult × Env × Nat :=
  match toChecksum address with
  | none => (.httpError 400 "Invalid Ethereum address format.", env, 0)
  | some checksum_address =>
    match get_contract_age ch with
    | (.error msg, n) => (.crash msg, env, n)
    | (.ok age_data, n) =>
      let (analysis_data, env1) := run_static_analysis cfgKey scan env
      if intTruthy age_data.creation_date then
        match ch.latest with
        | .error msg => (.crash msg, env1, n + 1)
        | .ok now =>
          (.ok { contract_address := checksum_address, age_data := age_data,
                 tvl_data := { tvl_score := "Placeholder" },
                 analysis_data := analysis_data,
                 final_score := finalScore analysis_data age_data now },
           env1, n + 1)
      else
        (.ok { contract_address := checksum_address, age_data := age_data,
               tvl_data := { tvl_score := "Placeholder" },
               analysis_data := analysis_data,
               final_score := finalScore analysis_data age_data 0 },
         env1, n)

/-- Definition following the words of claim C2 / spec §4.3: the raw score
starts at baseline 100 and, exactly when the analysis result has no error
set, subtracts 25 per critical, 15 per high and 5 per medium finding.  Kept
separate from the source-derived `rawAfterPenalties` so the two can be
compared. -/
def specRawScore (analysis : AnalysisData) : Int :=
  if analysis.error = none then
    100 - 25 * (analysis.critical.getD 0 : Int)
        - 15 * (analysis.high.getD 0 : Int)
        - 5 * (analysis.medium.getD 0 : Int)
  else 100

/-- The analysis result of a clean scan (no detectors fired): all four
counters 0, no findings, no error. -/
def cleanAnalysis : AnalysisData := summarize []

/-- An empty process environment. -/
def envEmpty : Env := { etherscanKey := none }

/-- A checksum validator that accepts everything (models a request whose
address is syntactically valid). -/
def tcValid : String → Option String := fun _ => some "0xABC"

/-- Bytecode oracle of a mock chain on which every block, block 0 included,
carries the one-byte bytecode `0x01` (monotone with creation block K = 0). -/
def codeAll : Nat → Except String (List Nat) := fun _ => .ok [1]

/-- Bytecode oracle of a mock monotone chain with creation block K = 1. -/
def codeFrom1 : Nat → Except String (List Nat) :=
  fun b => .ok (if 1 ≤ b then [1] else [])

/-- Block-timestamp oracle of the mock chains: block b has timestamp
1000 + b. -/
def tsOracle : Nat → Except String Int := fun b => .ok (1000 + (b : Int))

/-- Mock chain of height 10 on which every block, block 0 included, carries
the one-byte bytecode `0x01`: the monotone chain with creation block K = 0. -/
def allCodeChain : Chain :=
  { connected := true
    blockNumber := .ok 10
    getCode := codeAll
    getBlock := tsOracle
    latest := .ok 500000 }

/-- Mock monotone chain of height 1 with creation block K = 0. -/
def chainH1K0 : Chain :=
  { connected := true
    blockNumber := .ok 1
    getCode := codeAll
    getBlock := tsOracle
    latest := .ok 500000 }

/-- Mock monotone chain of height 1 with creation block K = 1. -/
def chainH1K1 : Chain :=
  { connected := true
    blockNumber := .ok 1
    getCode := codeFrom1
    getBlock := tsOracle
    latest := .ok 500000 }

/-- A chain whose client is reported as not connected. -/
def disconnectedChain : Chain :=
  { connected := false
    blockNumber := .ok 0
    getCode := fun _ => .ok []
    getBlock := fun _ => .ok 0
    latest := .ok 0 }

/-- A connected chain whose `w3.eth.block_number` read raises. -/
def heightFailChain : Chain :=
  { connected := true
    blockNumber := .error "node timeout"
    getCode := fun _ => .ok []
    getBlock := fun _ => .ok 0
    latest := .ok 0 }

/-- The analysis dictionary returned when the Etherscan credential is
missing: note the four count keys are absent, not zero. -/
def credMissingOut : AnalysisData :=
  { critical := none, high := none, medium := none, low := none,
    findings_list := [],
    error := some "Etherscan API Key is required for remote analysis." }

/-- An age result with every field absent (address not yet validated as a
contract). -/
def nullAge : AgeData :=
  { creation_date := none, block_number := none, error := none }

/-- A sample successful analysis summary: 2 critical, 1 high, 1 medium and 3
low findings. -/
def sampleAnalysis : AnalysisData :=
  { critical := some 2, high := some 1, medium := some 1, low := some 3,
    findings_list := [], error := none }

/-- Unfolding of `bsearch` on an empty interval. -/
theorem bsearch_stop (gc : Nat → Except String (List Nat)) (s : Nat)
    (e : Int) (acc : Option Nat) (h : ¬ ((s : Int) ≤ e)) :
    bsearch gc s e acc = (.ok acc, 0) := by
  rw [bsearch.eq_def]
  simp [h]

/-- Unfolding of `bsearch` when the probed block has truthy code. -/
theorem bsearch_found (gc : Nat → Except String (List Nat)) (s : Nat) (e : Int)
    (acc : Option Nat) (h : (s : Int) ≤ e) (code : List Nat)
    (hcode : gc ((s + e.toNat) / 2) = .ok code) (ht : codeTruthy code = true) :
    bsearch gc s e acc =
      ((bsearch gc s ((((s + e.toNat) / 2 : Nat) : Int) - 1)
          (some ((s + e.toNat) / 2))).1,
       (bsearch gc s ((((s + e.toNat) / 2 : Nat) : Int) - 1)
          (some ((s + e.toNat) / 2))).2 + 1) := by
  rw [bsearch.eq_def]
  simp [h, hcode, ht]

/-- Unfolding of `bsearch` when the probed block has no (truthy) code. -/
theorem bsearch_notyet (gc : Nat → Except String (List Nat)) (s : Nat)
    (e : Int) (acc : Option Nat) (h : (s : Int) ≤ e) (code : List Nat)
    (hcode : gc ((s + e.toNat) / 2) = .ok code) (hf : codeTruthy code = false) :
    bsearch gc s e acc =
      ((bsearch gc ((s + e.toNat) / 2 + 1) e acc).1,
       (bsearch gc ((s + e.toNat) / 2 + 1) e acc).2 + 1) := by
  rw [bsearch.eq_def]
  simp [h, hcode, hf]

/-- Unfolding of `bsearch` when the probe raises. -/
theorem bsearch_raise (gc : Nat → Except String (List Nat)) (s : Nat)
    (e : Int) (acc : Option Nat) (h : (s : Int) ≤ e) (msg : String)
    (hcode : gc ((s + e.toNat) / 2) = .error msg) :
    bsearch gc s e acc = (.error msg, 1) := by
  rw [bsearch.eq_def]
  simp [h, hcode]

/-- Result of the search loop on a monotone bytecode oracle: code truthy at
exactly the blocks ≥ K.  On the interval `[s, e]` the loop ends with the
least such block when one exists in the interval (that is `max s K`), and
with the accumulator untouched otherwise. -/
theorem bsearch_monotone_result (gc : Nat → Except String (List Nat))
    (c : Nat → List Nat) (K : Nat)
    (hgc : ∀ b, gc b = .ok (c b))
    (hc : ∀ b, codeTruthy (c b) = true ↔ K ≤ b) :
    ∀ (n : Nat) (s : Nat) (e : Int) (acc : Option Nat),
      (e + 1 - s).toNat ≤ n →
      (bsearch gc s e acc).1 =
        .ok (if (s : Int) ≤ e ∧ (K : Int) ≤ e then some (max s K) else acc) := by
  intro n
  induction n with
  | zero =>
    intro s e acc hn
    have hse : ¬ ((s : Int) ≤ e) := by omega
    rw [bsearch_stop gc s e acc hse]
    simp [hse]
  | succ n ih =>
    intro s e acc hn
    by_cases hse : (s : Int) ≤ e
    · by_cases hK : K ≤ (s + e.toNat) / 2
      · rw [bsearch_found gc s e acc hse _ (hgc _) ((hc _).mpr hK)]
        rw [ih s ((((s + e.toNat) / 2 : Nat) : Int) - 1)
              (some ((s + e.toNat) / 2)) (by omega)]
        have hcond : (s : Int) ≤ e ∧ (K : Int) ≤ e := ⟨hse, by omega⟩
        rw [if_pos hcond]
        split_ifs with h2
        · rfl
        · simp only [Except.ok.injEq, Option.some.injEq]
          omega
      · have hf : codeTruthy (c ((s + e.toNat) / 2)) = false := by
          rcases hb : codeTruthy (c ((s + e.toNat) / 2)) with _ | _
          · rfl
          · exact absurd ((hc _).mp hb) hK
        rw [bsearch_notyet gc s e acc hse _ (hgc _) hf]
        rw [ih ((s + e.toNat) / 2 + 1) e acc (by omega)]
        split_ifs with h1 h2
        · simp only [Except.ok.injEq, Option.some.injEq]
          omega
        · omega
        · omega
        · rfl
    · rw [bsearch_stop gc s e acc hse]
      simp [hse]

/-- Probe count of the search loop: on an interval of fewer than `2 ^ t`
blocks the loop issues at most `t` `get_code` probes, whatever the bytecode
oracle answers (a raised probe only shortens the run). -/
theorem bsearch_count_lt_pow (gc : Nat → Except String (List Nat)) :
    ∀ (t : Nat) (s : Nat) (e : Int) (acc : Option Nat),
      (e + 1 - s).toNat < 2 ^ t →
      (bsearch gc s e acc).2 ≤ t := by
  intro t
  induction t with
  | zero =>
    intro s e acc hn
    have hse : ¬ ((s : Int) ≤ e) := by
      simp only [pow_zero] at hn
      omega
    rw [bsearch_stop gc s e acc hse]
  | succ t ih =>
    intro s e acc hn
    have h2 : 2 ^ (t + 1) = 2 * 2 ^ t := by
      rw [pow_succ]
      ring
    by_cases hse : (s : Int) ≤ e
    · cases hcode : gc ((s + e.toNat) / 2) with
      | error msg =>
        rw [bsearch_raise gc s e acc hse msg hcode]
        omega
      | ok code =>
        cases ht : codeTruthy code with
        | true =>
          rw [bsearch_found gc s e acc hse code hcode ht]
          have := ih s ((((s + e.toNat) / 2 : Nat) : Int) - 1)
            (some ((s + e.toNat) / 2)) (by omega)
          simpa using Nat.add_le_add_right this 1
        | false =>
          rw [bsearch_notyet gc s e acc hse code hcode ht]
          have := ih ((s + e.toNat) / 2 + 1) e acc (by omega)
          simpa using Nat.add_le_add_right this 1
    · rw [bsearch_stop gc s e acc hse]
      exact Nat.zero_le _

/-- Claim C1 (code_bug shown): on every monotone mock chain of height H with
creation block K (bytecode truthy at exactly the blocks ≥ K), the locator
returns block K together with that block's timestamp whenever 1 ≤ K ≤ H, and
signals not-found when no block in [0, H] has code — but at K = 0 it also
reports "Contract code not found" instead of block 0 and its timestamp,
because the Python truthiness test `if creation_block:` is falsy at 0.  The
claim (and the spec's "address has code at block 0 → returns 0") requires the
K = 0 case to succeed, so the second conjunct exhibits the divergence. -/
theorem get_contract_age_on_monotone_chain (ch : Chain) (H K : Nat)
    (c : Nat → List Nat) (t : Nat → Int)
    (hconn : ch.connected = true)
    (hbn : ch.blockNumber = .ok H)
    (hgc : ∀ b, ch.getCode b = .ok (c b))
    (hgb : ∀ b, ch.getBlock b = .ok (t b))
    (hc : ∀ b, (codeTruthy (c b) = true ↔ K ≤ b)) :
    (1 ≤ K → K ≤ H →
      (get_contract_age ch).1 =
        .ok { creation_date := some (t K), block_number := some K,
              error := none }) ∧
    (K = 0 →
      (get_contract_age ch).1 =
        .ok { creation_date := none, block_number := none,
              error := some "Contract code not found via binary search." }) ∧
    (H < K →
      (get_contract_age ch).1 =
        .ok { creation_date := none, block_number := none,
              error := some "Contract code not found via binary search." }) := by
  have hres := bsearch_monotone_result ch.getCode c K hgc hc
    ((H : Int) + 1 - 0).toNat 0 (H : Int) none (le_refl _)
  unfold get_contract_age
  rw [hconn, hbn]
  simp only [Bool.not_true, Bool.false_eq_true, if_false]
  rcases hbs : bsearch ch.getCode 0 (H : Int) none with ⟨res, n⟩
  rw [hbs] at hres
  simp only at hres
  subst hres
  refine ⟨fun hK1 hKH => ?_, fun hK0 => ?_, fun hHK => ?_⟩
  · rw [if_pos ⟨by omega, by omega⟩]
    have hmax : max 0 K = K := by omega
    rw [hmax]
    dsimp only
    rw [if_neg (by omega), hgb K]
  · subst hK0
    rw [if_pos ⟨by omega, by omega⟩]
    have hmax : max 0 0 = 0 := by omega
    rw [hmax]
    dsimp only
    rw [if_pos rfl]
  · rw [if_neg (by omega)]

/-- Concrete run of the search loop: height 1, code everywhere — one probe,
answer block 0. -/
theorem bsearch_codeAll_H1 : bsearch codeAll 0 ((1 : Nat) : Int) none = (.ok (some 0), 1) := by
  rw [bsearch.eq_def]
  norm_num [codeAll, codeTruthy]
  rw [bsearch.eq_def]
  norm_num

/-- Concrete run of the search loop: height 1, code only at block 1 — two
probes, answer block 1. -/
theorem bsearch_codeFrom1_H1 : bsearch codeFrom1 0 ((1 : Nat) : Int) none = (.ok (some 1), 2) := by
  rw [bsearch.eq_def]
  norm_num [codeFrom1, codeTruthy]
  rw [bsearch.eq_def]
  norm_num [codeFrom1, codeTruthy]
  rw [bsearch.eq_def]
  norm_num

/-- Concrete evaluation of the locator on the height-1 chain with K = 0:
1 node query, and (because of the block-0 truthiness bug) a not-found
result. -/
theorem age_H1K0_eval :
    get_contract_age chainH1K0 =
      (.ok { creation_date := none, block_number := none,
             error := some "Contract code not found via binary search." }, 1) := by
  unfold get_contract_age
  rw [show chainH1K0.connected = true from rfl,
      show chainH1K0.blockNumber = Except.ok 1 from rfl]
  simp only [Bool.not_true, Bool.false_eq_true, if_false]
  rw [show chainH1K0.getCode = codeAll from rfl, bsearch_codeAll_H1]
  norm_num

/-- Concrete evaluation of the locator on the height-1 chain with K = 1:
3 node queries (2 probes + 1 timestamp fetch), block 1 with timestamp
1001. -/
theorem age_H1K1_eval :
    get_contract_age chainH1K1 =
      (.ok { creation_date := some 1001, block_number := some 1,
             error := none }, 3) := by
  unfold get_contract_age
  rw [show chainH1K1.connected = true from rfl,
      show chainH1K1.blockNumber = Except.ok 1 from rfl]
  simp only [Bool.not_true, Bool.false_eq_true, if_false]
  rw [show chainH1K1.getCode = codeFrom1 from rfl, bsearch_codeFrom1_H1,
      show chainH1K1.getBlock = tsOracle from rfl]
  norm_num [tsOracle]

/-- The score computation of the handler decomposes as penalties plus the
maturity bonus, clamped below at 0. -/
theorem finalScore_eq (a : AnalysisData) (age : AgeData) (now : Int) :
    finalScore a age now = max 0 (rawAfterPenalties a + maturityBonus age now) := by
  unfold finalScore maturityBonus
  by_cases h : intTruthy age.creation_date <;>
    by_cases h2 : now - age.creation_date.getD 0 > 31536000 <;>
      simp [h, h2]

/-- On analysis results whose error field is not the empty string (every
result the adapter can produce), the source's truthiness test on `error`
agrees with the spec's "error not set", so the two raw-score definitions
coincide. -/
theorem specRaw_eq_raw (a : AnalysisData) (hne : a.error ≠ some "") :
    specRawScore a = rawAfterPenalties a := by
  unfold specRawScore rawAfterPenalties strTruthy
  rcases he : a.error with _ | s
  · simp
  · have hs : s ≠ "" := fun hh => hne (by rw [he, hh])
    simp [hs]

/-- Claim C2 (amended): for every analysis and age result (with a non-empty
error message when one is set), final_score = max(0, raw + b) where raw is
baseline 100 minus 25/15/5 per critical/high/medium exactly when no error is
set, and b is the implementation's maturity bonus; low findings never affect
the score; the result is never negative, and a combination driving raw + b
below 0 yields exactly 0. -/
theorem score_penalties_bonus_clamp (a : AnalysisData) (age : AgeData)
    (now : Int) (hne : a.error ≠ some "") :
    finalScore a age now = max 0 (specRawScore a + maturityBonus age now) ∧
    (∀ l, finalScore { a with low := l } age now = finalScore a age now) ∧
    0 ≤ finalScore a age now ∧
    (specRawScore a + maturityBonus age now < 0 → finalScore a age now = 0) := by
  have hsr := specRaw_eq_raw a hne
  refine ⟨?_, ?_, ?_, ?_⟩
  · rw [finalScore_eq, hsr]
  · intro l
    rfl
  · rw [finalScore_eq]
    exact le_max_left _ _
  · intro hlt
    rw [finalScore_eq, hsr] at *
    omega

/-- Claim C2, counterexample to the claim as stated: for a clean analysis and
an age result old enough for the maturity bonus, final_score is 105, not
max(0, raw) = 100 — the claim's formula omits the +5 bonus term. -/
theorem score_plain_clamp_cex :
    finalScore cleanAnalysis
        { creation_date := some 1, block_number := some 1, error := none }
        63072001 ≠ max 0 (specRawScore cleanAnalysis) ∧
    finalScore cleanAnalysis
        { creation_date := some 1, block_number := some 1, error := none }
        63072001 = 105 ∧
    max 0 (specRawScore cleanAnalysis) = 100 := by
  refine ⟨?_, ?_, ?_⟩ <;> decide

/-- Claim C3, counterexample to the claim as stated: with creation timestamp
0 (set, and now − 0 > 31536000) the bonus is *not* added — final_score stays
100 — because the handler tests truthiness of the timestamp, so the claimed
"if and only if the timestamp is set and old enough" fails at timestamp 0. -/
theorem maturity_bonus_epoch_cex :
    (AgeData.mk (some 0) (some 5) none).creation_date ≠ none ∧
    ((40000000 : Int) - 0 > 31536000) ∧
    maturityBonus (AgeData.mk (some 0) (some 5) none) 40000000 = 0 ∧
    finalScore cleanAnalysis (AgeData.mk (some 0) (some 5) none) 40000000 = 100 := by
  refine ⟨?_, ?_, ?_, ?_⟩ <;> decide

/-- Claim C3 (amended): the +5 maturity bonus is added if and only if the
creation timestamp is set, non-zero, and now − timestamp exceeds 31536000
seconds; the final score is max(0, raw + bonus) with no upper clamp, so a
clean contract with a non-zero timestamp older than a year scores exactly
105. -/
theorem maturity_bonus_iff_nonzero :
    (∀ (a : AnalysisData) (age : AgeData) (now : Int),
      finalScore a age now = max 0 (rawAfterPenalties a + maturityBonus age now)) ∧
    (∀ (age : AgeData) (now : Int),
      maturityBonus age now = 5 ↔
        (∃ ts, age.creation_date = some ts ∧ ts ≠ 0 ∧ now - ts > 31536000)) ∧
    (∀ (now ts : Int) (bn : Option Nat), ts ≠ 0 → now - ts > 31536000 →
      finalScore cleanAnalysis
        { creation_date := some ts, block_number := bn, error := none } now = 105) := by
  refine ⟨finalScore_eq, ?_, ?_⟩
  · intro age now
    unfold maturityBonus intTruthy
    rcases age.creation_date with _ | ts
    · simp
    · by_cases hts : ts = 0
      · simp [hts]
      · by_cases hgt : now - ts > 31536000 <;> simp [hts, hgt]
  · intro now ts bn hts hgt
    rw [finalScore_eq]
    have h1 : rawAfterPenalties cleanAnalysis = 100 := by decide
    have h2 : maturityBonus
        { creation_date := some ts, block_number := bn, error := none } now = 5 := by
      unfold maturityBonus intTruthy
      simp [hts, hgt]
    rw [h1, h2]
    rfl

/-- Claim C10: a located creation timestamp equal to 0 (the Unix epoch) is
treated by the maturity-bonus check exactly like an absent timestamp — the
truthiness test `age_data.get("creation_date")` is falsy at 0 — so such a
contract never receives the +5 bonus even when now − 0 exceeds one year. -/
theorem epoch_timestamp_never_gets_bonus (a : AnalysisData) (bn : Option Nat)
    (err : Option String) (now : Int) (_h : now - 0 > 31536000) :
    finalScore a { creation_date := some 0, block_number := bn, error := err } now =
      finalScore a { creation_date := none, block_number := bn, error := err } now ∧
    maturityBonus { creation_date := some 0, block_number := bn, error := err } now = 0 := by
  constructor
  · rfl
  · rfl

/-- Writing a counter key never touches the error field. -/
theorem setCount_error (a : AnalysisData) (impact : String) (n : Nat) :
    (setCount a impact n).error = a.error := by
  unfold setCount
  split_ifs <;> rfl

/-- Incrementing a counter never touches the error field. -/
theorem bumpCount_error (a : AnalysisData) (impact : String) :
    (bumpCount a impact).error = a.error := by
  unfold bumpCount
  rcases h : getCount a impact with _ | n
  · rfl
  · exact setCount_error a impact (n + 1)

/-- The inner findings loop never touches the error field. -/
theorem addVulns_error (dname impact : String) (vs : List Vuln)
    (a : AnalysisData) :
    (addVulns dname impact vs a).error = a.error := by
  induction vs generalizing a with
  | nil => rfl
  | cons v vs ih =>
    unfold addVulns at ih ⊢
    simp only [List.foldl_cons]
    rw [ih]
    exact bumpCount_error _ impact

/-- Processing one detector never touches the error field. -/
theorem processDetector_error (a : AnalysisData) (d : Detector) :
    (processDetector a d).error = a.error := by
  unfold processDetector
  split_ifs with h
  · rfl
  · have haux : ∀ (l : List String) (acc : AnalysisData),
        (l.foldl
          (fun acc impact =>
            match d.result.lookup impact with
            | some vs => addVulns d.NAME impact vs acc
            | none => acc)
          acc).error = acc.error := by
      intro l
      induction l with
      | nil => intro acc; rfl
      | cons i l ih =>
        intro acc
        simp only [List.foldl_cons]
        rw [ih]
        rcases hl : d.result.lookup i with _ | vs
        · rfl
        · exact addVulns_error d.NAME i vs acc
    exact haux _ _

/-- A successful scan produces a summary with no error set. -/
theorem summarize_error (dets : List Detector) : (summarize dets).error = none := by
  unfold summarize
  have haux : ∀ (l : List Detector) (a : AnalysisData),
      (l.foldl processDetector a).error = a.error := by
    intro l
    induction l with
    | nil => intro a; rfl
    | cons d l ih =>
      intro a
      simp only [List.foldl_cons]
      rw [ih]
      exact processDetector_error a d
  rw [haux]

/-- Claim C5, counterexample to the claim as stated: the missing-credential
result has its error set, but its critical count is *absent* (the source's
error returns omit the four count keys entirely), not "zero". -/
theorem error_result_counts_absent_cex :
    ((run_static_analysis none (ScanOutcome.ok []) envEmpty).1.error).isSome = true ∧
    (run_static_analysis none (ScanOutcome.ok []) envEmpty).1.critical ≠ some 0 := by
  refine ⟨?_, ?_⟩ <;> decide

/-- Claim C5 (amended): whenever `run_static_analysis` returns a result with
the error field set (missing credential, SlitherException, or any other
exception), the four severity-count keys are absent from the result — so any
read with default 0, as the handler performs, yields 0 — and the findings
list is empty. -/
theorem error_result_shape (cfgKey : Option String) (scan : ScanOutcome)
    (env : Env)
    (h : ((run_static_analysis cfgKey scan env).1.error).isSome = true) :
    (run_static_analysis cfgKey scan env).1.critical = none ∧
    (run_static_analysis cfgKey scan env).1.high = none ∧
    (run_static_analysis cfgKey scan env).1.medium = none ∧
    (run_static_analysis cfgKey scan env).1.low = none ∧
    (run_static_analysis cfgKey scan env).1.findings_list = [] ∧
    (run_static_analysis cfgKey scan env).1.critical.getD 0 = 0 ∧
    (run_static_analysis cfgKey scan env).1.high.getD 0 = 0 ∧
    (run_static_analysis cfgKey scan env).1.medium.getD 0 = 0 ∧
    (run_static_analysis cfgKey scan env).1.low.getD 0 = 0 := by
  unfold run_static_analysis at h ⊢
  cases hk : strTruthy cfgKey with
  | false => simp [hk]
  | true =>
    cases scan with
    | ok dets =>
      exfalso
      rw [hk] at h
      simp [summarize_error] at h
    | slitherExc msg => simp [hk]
    | otherExc msg => simp [hk]

/-- Claim C8: on every execution that injects the credential into the shared
environment (i.e., whenever the configured key is truthy so the early return
is not taken), the ETHERSCAN_API_KEY entry has been removed from the
environment by the time the function returns, whatever the scan outcome —
success, SlitherException or any other exception. -/
theorem etherscan_key_removed_after_scan (cfgKey : Option String)
    (scan : ScanOutcome) (env : Env) (h : strTruthy cfgKey = true) :
    ((run_static_analysis cfgKey scan env).2).etherscanKey = none := by
  unfold run_static_analysis
  rw [h]
  cases scan <;> rfl

/-- Claim C8, witness: concrete instance where the scan raises and the
environment previously held the key. -/
theorem etherscan_key_removed_after_scan_witness :
    ((run_static_analysis (some "configured-key") (ScanOutcome.slitherExc "boom")
        { etherscanKey := some "configured-key" }).2).etherscanKey = none :=
  etherscan_key_removed_after_scan (some "configured-key")
    (ScanOutcome.slitherExc "boom") { etherscanKey := some "configured-key" }
    (by decide)

/-- Claim C9: when checksum validation fails, the handler returns HTTP 400
with no node query issued (query count 0), the environment untouched, and a
result that does not depend on the chain or the scanner at all (the
right-hand side mentions neither). -/
theorem invalid_address_rejected_before_calls (toChecksum : String → Option String)
    (cfgKey : Option String) (ch : Chain) (scan : ScanOutcome) (env : Env)
    (address : String) (h : toChecksum address = none) :
    get_risk_data toChecksum cfgKey ch scan env address =
      (.httpError 400 "Invalid Ethereum address format.", env, 0) := by
  unfold get_risk_data
  rw [h]

/-- Claim C9, witness: concrete malformed-address request. -/
theorem invalid_address_rejected_before_calls_witness :
    get_risk_data (fun _ => none) (some "k") disconnectedChain
        (ScanOutcome.ok []) envEmpty "zzz" =
      (.httpError 400 "Invalid Ethereum address format.", envEmpty, 0) :=
  invalid_address_rejected_before_calls (fun _ => none) (some "k")
    disconnectedChain (ScanOutcome.ok []) envEmpty "zzz" rfl

/-- When the height read succeeds, `get_contract_age` always returns an age
dictionary (its only uncaught exception is the `w3.eth.block_number`
read). -/
theorem get_contract_age_ok (ch : Chain) (H : Nat)
    (hbn : ch.blockNumber = .ok H) :
    ∃ ad, (get_contract_age ch).1 = .ok ad := by
  unfold get_contract_age
  cases hc : ch.connected with
  | false => exact ⟨_, rfl⟩
  | true =>
    rw [hbn]
    simp only [Bool.not_true, Bool.false_eq_true, if_false]
    rcases hbs : bsearch ch.getCode 0 (H : Int) none with ⟨res, n⟩
    rcases res with msg | cb
    · exact ⟨_, rfl⟩
    · rcases cb with _ | cb
      · exact ⟨_, rfl⟩
      · dsimp only
        by_cases hcb : cb = 0
        · rw [if_pos hcb]
          exact ⟨_, rfl⟩
        · rw [if_neg hcb]
          rcases hgb : ch.getBlock cb with msg | ts
          · exact ⟨_, rfl⟩
          · exact ⟨_, rfl⟩

/-- With a falsy configured key the adapter returns the missing-credential
result and leaves the environment untouched, whatever the scan outcome. -/
theorem run_static_analysis_missing (cfgKey : Option String)
    (scan : ScanOutcome) (env : Env) (hkey : strTruthy cfgKey = false) :
    run_static_analysis cfgKey scan env = (credMissingOut, env) := by
  unfold run_static_analysis credMissingOut
  rw [hkey]
  rfl

/-- Claim C7 (amended): for every syntactically valid address, provided the
two unguarded node reads succeed (`w3.eth.block_number` on line 88 and
`get_block("latest")` on line 60), the handler returns a well-formed report
(HTTP 200) — every other internal failure of the age lookup or the analysis
is recovered locally into an error field.  The two unguarded reads are the
amendment: their failure does escape the handler, as the counterexample
shows. -/
theorem handler_returns_report_when_fetches_ok
    (toChecksum : String → Option String) (cfgKey : Option String)
    (ch : Chain) (scan : ScanOutcome) (env : Env) (address cs : String)
    (H : Nat) (now : Int)
    (hcs : toChecksum address = some cs)
    (hbn : ch.blockNumber = .ok H)
    (hlat : ch.latest = .ok now) :
    ∃ r, (get_risk_data toChecksum cfgKey ch scan env address).1 = .ok r := by
  obtain ⟨ad, had⟩ := get_contract_age_ok ch H hbn
  unfold get_risk_data
  rw [hcs]
  rcases hga : get_contract_age ch with ⟨res, n⟩
  rw [hga] at had
  simp only at had
  subst had
  dsimp only
  rcases hrs : run_static_analysis cfgKey scan env with ⟨anl, env1⟩
  by_cases hts : intTruthy ad.creation_date
  · rw [if_pos hts, hlat]
    exact ⟨_, rfl⟩
  · rw [if_neg hts]
    exact ⟨_, rfl⟩

/-- Claim C6 (amended): when the explorer credential is absent (falsy) at
call time, the handler still returns a report (HTTP 200) whose analysis data
is exactly the missing-credential result — an error naming the Etherscan API
key, count keys absent (reading them with default 0 gives 0), empty findings
— the environment is left untouched (no credential injection), and the whole
response is independent of the scanner (no scan is attempted). -/
theorem missing_key_degrades (toChecksum : String → Option String)
    (cfgKey : Option String) (ch : Chain) (scan scan' : ScanOutcome)
    (env : Env) (address cs : String) (H : Nat) (now : Int)
    (hcs : toChecksum address = some cs)
    (hbn : ch.blockNumber = .ok H)
    (hlat : ch.latest = .ok now)
    (hkey : strTruthy cfgKey = false) :
    (∃ r, (get_risk_data toChecksum cfgKey ch scan env address).1 = .ok r ∧
       r.analysis_data = credMissingOut) ∧
    (get_risk_data toChecksum cfgKey ch scan env address).2.1 = env ∧
    get_risk_data toChecksum cfgKey ch scan env address =
      get_risk_data toChecksum cfgKey ch scan' env address := by
  obtain ⟨ad, had⟩ := get_contract_age_ok ch H hbn
  unfold get_risk_data
  rw [hcs]
  rcases hga : get_contract_age ch with ⟨res, n⟩
  rw [hga] at had
  simp only at had
  subst had
  dsimp only
  rw [run_static_analysis_missing cfgKey scan env hkey,
      run_static_analysis_missing cfgKey scan' env hkey]
  dsimp only
  by_cases hts : intTruthy ad.creation_date
  · rw [if_pos hts, hlat]
    exact ⟨⟨_, rfl, rfl⟩, rfl, rfl⟩
  · rw [if_neg hts]
    exact ⟨⟨_, rfl, rfl⟩, rfl, rfl⟩

/-- Claim C4 (amended): the number of node queries issued by the locator on a
chain of height H is at most ⌊log2(H+1)⌋ + 2 (at most ⌊log2(H+1)⌋ + 1
binary-search probes plus at most one timestamp fetch).  The exact count is
not the claimed ⌈log2(H+1)⌉ + 1 and does depend on K, as the counterexample
shows. -/
theorem probe_count_log_bound (ch : Chain) (H : Nat)
    (hconn : ch.connected = true) (hbn : ch.blockNumber = .ok H) :
    (get_contract_age ch).2 ≤ Nat.log2 (H + 1) + 2 := by
  have hlt : H + 1 < 2 ^ (Nat.log2 (H + 1) + 1) := Nat.lt_log2_self
  have hb : (bsearch ch.getCode 0 (H : Int) none).2 ≤ Nat.log2 (H + 1) + 1 :=
    bsearch_count_lt_pow ch.getCode (Nat.log2 (H + 1) + 1) 0 (H : Int) none
      (by omega)
  unfold get_contract_age
  rw [hconn, hbn]
  simp only [Bool.not_true, Bool.false_eq_true, if_false]
  rcases hbs : bsearch ch.getCode 0 (H : Int) none with ⟨res, n⟩
  rw [hbs] at hb
  simp only at hb
  rcases res with msg | cb
  · dsimp only
    omega
  · rcases cb with _ | cb
    · dsimp only
      omega
    · dsimp only
      by_cases hcb : cb = 0
      · rw [if_pos hcb]
        omega
      · rw [if_neg hcb]
        rcases hgb : ch.getBlock cb with msg | ts <;> dsimp only <;> omega

/-- Claim C4, witness: the bound instantiated on the height-1 chain with
K = 1 (3 queries ≤ ⌊log2 2⌋ + 2 = 3). -/
theorem probe_count_log_bound_witness :
    (get_contract_age chainH1K1).2 ≤ Nat.log2 (1 + 1) + 2 :=
  probe_count_log_bound chainH1K1 1 rfl rfl

/-- Claim C4, counterexample to the claim as stated: two monotone chains of
the same height H = 1 (K = 0 and K = 1) receive 1 and 3 node queries — the
count is not ⌈log2(H+1)⌉ + 1 = 2 and is not independent of K. -/
theorem probe_count_depends_on_K :
    (get_contract_age chainH1K0).2 = 1 ∧
    (get_contract_age chainH1K1).2 = 3 ∧
    (get_contract_age chainH1K0).2 ≠ (get_contract_age chainH1K1).2 := by
  rw [age_H1K0_eval, age_H1K1_eval]
  exact ⟨rfl, rfl, by norm_num⟩

/-- Claim C1, witness: on the concrete all-code chain of height 10 (creation
block K = 0) the locator reports not-found instead of block 0. -/
theorem get_contract_age_on_monotone_chain_witness :
    (get_contract_age allCodeChain).1 =
      .ok { creation_date := none, block_number := none,
            error := some "Contract code not found via binary search." } :=
  (get_contract_age_on_monotone_chain allCodeChain 10 0 (fun _ => [1])
      (fun b => 1000 + (b : Int)) rfl rfl (fun _ => rfl) (fun _ => rfl)
      (fun b => iff_of_true rfl (Nat.zero_le b))).2.1 rfl

theorem score_penalties_bonus_clamp_witness :
    finalScore sampleAnalysis nullAge 0 =
      max 0 (specRawScore sampleAnalysis + maturityBonus nullAge 0) ∧
    finalScore { sampleAnalysis with low := some 9 } nullAge 0 =
      finalScore sampleAnalysis nullAge 0 ∧
    0 ≤ finalScore sampleAnalysis nullAge 0 :=
  ⟨(score_penalties_bonus_clamp sampleAnalysis nullAge 0 (by decide)).1,
   (score_penalties_bonus_clamp sampleAnalysis nullAge 0 (by decide)).2.1 (some 9),
   (score_penalties_bonus_clamp sampleAnalysis nullAge 0 (by decide)).2.2.1⟩

/-- Claim C3, witness: a clean contract created at timestamp 1000, queried at
now = 40000000, scores exactly 105. -/
theorem maturity_bonus_iff_nonzero_witness :
    finalScore cleanAnalysis
      { creation_date := some 1000, block_number := some 7, error := none }
      40000000 = 105 :=
  maturity_bonus_iff_nonzero.2.2 40000000 1000 (some 7) (by decide) (by decide)

/-- Claim C10, witness: concrete instance at now = 40000000. -/
theorem epoch_timestamp_never_gets_bonus_witness :
    finalScore cleanAnalysis
        { creation_date := some 0, block_number := some 3, error := none }
        40000000 =
      finalScore cleanAnalysis
        { creation_date := none, block_number := some 3, error := none }
        40000000 ∧
    maturityBonus
        { creation_date := some 0, block_number := some 3, error := none }
        40000000 = 0 :=
  epoch_timestamp_never_gets_bonus cleanAnalysis (some 3) none 40000000 (by decide)

/-- Claim C5, witness: concrete instance for a raised SlitherException. -/
theorem error_result_shape_witness :
    (run_static_analysis (some "k") (ScanOutcome.slitherExc "unverified") envEmpty).1.critical = none ∧
    (run_static_analysis (some "k") (ScanOutcome.slitherExc "unverified") envEmpty).1.high = none ∧
    (run_static_analysis (some "k") (ScanOutcome.slitherExc "unverified") envEmpty).1.medium = none ∧
    (run_static_analysis (some "k") (ScanOutcome.slitherExc "unverified") envEmpty).1.low = none ∧
    (run_static_analysis (some "k") (ScanOutcome.slitherExc "unverified") envEmpty).1.findings_list = [] ∧
    (run_static_analysis (some "k") (ScanOutcome.slitherExc "unverified") envEmpty).1.critical.getD 0 = 0 ∧
    (run_static_analysis (some "k") (ScanOutcome.slitherExc "unverified") envEmpty).1.high.getD 0 = 0 ∧
    (run_static_analysis (some "k") (ScanOutcome.slitherExc "unverified") envEmpty).1.medium.getD 0 = 0 ∧
    (run_static_analysis (some "k") (ScanOutcome.slitherExc "unverified") envEmpty).1.low.getD 0 = 0 :=
  error_result_shape (some "k") (ScanOutcome.slitherExc "unverified") envEmpty
    (by decide)

/-- Claim C6, counterexample to the claim as stated: the 200 response under
a missing credential carries an analysis dictionary whose critical count is
*absent*, not "zero". -/
theorem missing_key_counts_zero_cex :
    (get_risk_data tcValid none disconnectedChain (ScanOutcome.ok [])
        envEmpty "x").1 =
      HandlerResult.ok
        { contract_address := "0xABC",
          age_data := { creation_date := none, block_number := none,
                        error := some "Web3 client is not connected to node provider." },
          tvl_data := { tvl_score := "Placeholder" },
          analysis_data := credMissingOut,
          final_score := 100 } ∧
    credMissingOut.critical ≠ some 0 ∧
    credMissingOut.error.isSome = true := by
  refine ⟨?_, ?_, ?_⟩ <;> decide

/-- Claim C6, witness: concrete missing-credential request against the
height-1 mock chain. -/
theorem missing_key_degrades_witness :
    (∃ r, (get_risk_data tcValid none chainH1K0 (ScanOutcome.ok [])
        envEmpty "a").1 = .ok r ∧ r.analysis_data = credMissingOut) ∧
    (get_risk_data tcValid none chainH1K0 (ScanOutcome.ok [])
        envEmpty "a").2.1 = envEmpty ∧
    get_risk_data tcValid none chainH1K0 (ScanOutcome.ok []) envEmpty "a" =
      get_risk_data tcValid none chainH1K0 (ScanOutcome.slitherExc "x")
        envEmpty "a" :=
  missing_key_degrades tcValid none chainH1K0 (ScanOutcome.ok [])
    (ScanOutcome.slitherExc "x") envEmpty "a" "0xABC" 1 500000
    rfl rfl rfl rfl

/-- Claim C7, counterexample to the claim as stated: a valid address whose
age lookup fails at the `w3.eth.block_number` read (outside the try block)
makes the handler itself raise — the failure is not recovered into an error
field. -/
theorem height_fetch_failure_crashes :
    (get_risk_data tcValid (some "key") heightFailChain (ScanOutcome.ok [])
        envEmpty "x").1 = HandlerResult.crash "node timeout" := by
  decide

/-- Claim C7, witness: concrete valid request on the height-1 mock chain. -/
theorem handler_returns_report_when_fetches_ok_witness :
    ∃ r, (get_risk_data tcValid (some "key") chainH1K0 (ScanOutcome.ok [])
        envEmpty "a").1 = .ok r :=
  handler_returns_report_when_fetches_ok tcValid (some "key") chainH1K0
    (ScanOutcome.ok []) envEmpty "a" "0xABC" 1 500000 rfl rfl rfl
